import Mathlib

/-!
Verification of the GeoGrab REST scraper core
(`sc_rest_scraper/core/downloader.py` and `sc_rest_scraper/core/safety.py`)
against its natural-language specification.

The Python code is shallowly embedded: network calls are modelled as
explicit outcome parameters (an `Except Unit _` value standing for the
JSON response of a `fetch_json` call, `.error` standing for a raised
exception), JSON dictionaries become structures with `Option` fields
(`none` standing for an absent key), floating point extents become exact
rationals, and the mutable `TIMEOUT` attribute of the downloader becomes
explicit state passing.
-/

namespace GeoGrab

/-! ## Batch partitioning (downloader.py, `download_features`, step 3)

The batch loop computes `nb = math.ceil(len(oids) / BATCH_SIZE)` and, for
`bi in range(nb)`, slices `oids[s:e]` with `s = bi * BATCH_SIZE` and
`e = min(s + BATCH_SIZE, len(oids))`.  `batchSlice` is that slice
(`(drop s).take (e - s)` is the Lean rendering of the Python slice
`oids[s:e]`), and `downloadBatches` is the list of all `nb` slices in
loop order. -/

/-- The slice `oids[s : min (s + B) (length oids)]` taken by one
iteration of the batch loop. -/
def batchSlice (oids : List Int) (B s : Nat) : List Int :=
  (oids.drop s).take (min (s + B) oids.length - s)

/-- The list of OID batches produced by the batch loop of
`download_features`, in the order the loop processes them.
`(oids.length + B - 1) / B` is `math.ceil(len(oids) / B)` for `B > 0`. -/
def downloadBatches (oids : List Int) (B : Nat) : List (List Int) :=
  (List.range ((oids.length + B - 1) / B)).map (fun bi => batchSlice oids B (bi * B))

theorem batchSlice_zero (oids : List Int) (B : Nat) :
    batchSlice oids B 0 = oids.take B := by
  simp only [batchSlice, Nat.zero_add, List.drop_zero, Nat.sub_zero]
  rcases le_or_lt B oids.length with h | h
  · rw [min_eq_left h]
  · rw [min_eq_right (le_of_lt h), List.take_of_length_le (le_refl _),
      List.take_of_length_le (le_of_lt h)]

theorem batchSlice_shift (oids : List Int) (B : Nat) (bi : Nat) (hB : 0 < B) :
    batchSlice oids B ((bi + 1) * B) = batchSlice (oids.drop B) B (bi * B) := by
  simp only [batchSlice, List.drop_drop, List.length_drop]
  have h1 : bi * B + B = (bi + 1) * B := by ring
  rw [h1]
  congr 1
  · omega
  · congr 1
    ring

theorem downloadBatches_nil (B : Nat) (hB : 0 < B) :
    downloadBatches [] B = [] := by
  simp only [downloadBatches, List.length_nil]
  have : (0 + B - 1) / B = 0 := by
    apply Nat.div_eq_of_lt
    omega
  rw [this]
  simp

theorem downloadBatches_cons (oids : List Int) (B : Nat) (hB : 0 < B)
    (h : oids ≠ []) :
    downloadBatches oids B = oids.take B :: downloadBatches (oids.drop B) B := by
  have hlen : 0 < oids.length := List.length_pos.mpr h
  have hnb : (oids.length + B - 1) / B = ((oids.drop B).length + B - 1) / B + 1 := by
    simp only [List.length_drop]
    rcases le_or_lt oids.length B with hle | hlt
    · have h1 : oids.length - B = 0 := by omega
      rw [h1]
      have h2 : (0 + B - 1) / B = 0 := Nat.div_eq_of_lt (by omega)
      rw [h2]
      exact Nat.div_eq_of_lt_le (by omega) (by omega)
    · have h1 : oids.length - B + B - 1 = oids.length - 1 := by omega
      have h2 : oids.length + B - 1 = (oids.length - 1) + B := by omega
      rw [h1, h2, Nat.add_div_right _ hB]
  simp only [downloadBatches]
  rw [hnb, List.range_succ_eq_map, List.map_cons]
  congr 1
  · rw [Nat.zero_mul, batchSlice_zero]
  · rw [List.map_map]
    apply List.map_congr_left
    intro bi _
    simp only [Function.comp_apply]
    exact batchSlice_shift oids B bi hB

theorem downloadBatches_flatten (B : Nat) (hB : 0 < B) (oids : List Int) :
    (downloadBatches oids B).flatten = oids := by
  have key : ∀ n (l : List Int), l.length = n → (downloadBatches l B).flatten = l := by
    intro n
    induction n using Nat.strong_induction_on with
    | _ n ih =>
      intro l hn
      cases l with
      | nil => rw [downloadBatches_nil B hB]; rfl
      | cons a rest =>
        rw [downloadBatches_cons _ B hB (by simp), List.flatten_cons,
          ih ((a :: rest).drop B).length
            (by simp only [List.length_drop, List.length_cons] at hn ⊢; omega) _ rfl,
          List.take_append_drop]
  exact key oids.length oids rfl

theorem downloadBatches_length (oids : List Int) (B : Nat) :
    (downloadBatches oids B).length = (oids.length + B - 1) / B := by
  simp [downloadBatches]

theorem downloadBatches_ne_nil (B : Nat) (hB : 0 < B) (oids : List Int) :
    ∀ b ∈ downloadBatches oids B, b ≠ [] := by
  have key : ∀ n (l : List Int), l.length = n → ∀ b ∈ downloadBatches l B, b ≠ [] := by
    intro n
    induction n using Nat.strong_induction_on with
    | _ n ih =>
      intro l hn
      cases l with
      | nil => rw [downloadBatches_nil B hB]; intro b hb; cases hb
      | cons a rest =>
        rw [downloadBatches_cons _ B hB (by simp)]
        intro b hb
        rcases List.mem_cons.mp hb with h | h
        · subst h
          simp only [ne_eq, List.take_eq_nil_iff]
          push_neg
          exact ⟨by omega, by simp⟩
        · exact ih ((a :: rest).drop B).length
            (by simp only [List.length_drop, List.length_cons] at hn ⊢; omega) _ rfl b h
  exact key oids.length oids rfl

/-- `downloadBatches` produces the minimum number of batches covering the
list: `nb * B` reaches the length, and one batch fewer would not. -/
theorem downloadBatches_length_minimal (oids : List Int) (B : Nat) (hB : 0 < B)
    (hN : 0 < oids.length) :
    oids.length ≤ (downloadBatches oids B).length * B ∧
    ((downloadBatches oids B).length - 1) * B < oids.length := by
  rw [downloadBatches_length, ← Nat.ceilDiv_eq_add_pred_div]
  have h1 : oids.length ≤ B * (oids.length ⌈/⌉ B) :=
    (ceilDiv_le_iff_le_mul hB).mp (le_refl _)
  have hq1 : 0 < oids.length ⌈/⌉ B := by
    rcases Nat.eq_zero_or_pos (oids.length ⌈/⌉ B) with h0 | h
    · rw [h0, Nat.mul_zero] at h1; omega
    · exact h
  refine ⟨by rw [Nat.mul_comm]; exact h1, ?_⟩
  by_contra hc
  push_neg at hc
  have h2 : oids.length ⌈/⌉ B ≤ oids.length ⌈/⌉ B - 1 :=
    (ceilDiv_le_iff_le_mul hB).mpr (by rw [Nat.mul_comm]; exact hc)
  omega

/-- C1: for every sorted, deduplicated OID list of size N > 0 and every
batch size B > 0, the batch loop of `download_features` partitions the list
into exactly ⌈N/B⌉ nonempty batches, in ascending order, whose concatenation
in processing order is exactly the original list (no duplicate, no missing
ID), and the largest OID of each batch is smaller than the smallest OID of
the next batch. -/
theorem download_batches_partition (oids : List Int) (B : Nat)
    (hsorted : oids.Pairwise (· < ·)) (_hN : 0 < oids.length) (hB : 0 < B) :
    (downloadBatches oids B).length = oids.length ⌈/⌉ B ∧
    (downloadBatches oids B).flatten = oids ∧
    (∀ b ∈ downloadBatches oids B, b ≠ []) ∧
    List.Chain' (fun b1 b2 => ∀ x ∈ b1.getLast?, ∀ y ∈ b2.head?, x < y)
      (downloadBatches oids B) := by
  refine ⟨?_, downloadBatches_flatten B hB oids, downloadBatches_ne_nil B hB oids, ?_⟩
  · rw [downloadBatches_length, Nat.ceilDiv_eq_add_pred_div]
  · have hflat := downloadBatches_flatten B hB oids
    have hpw : List.Pairwise (· < ·) (downloadBatches oids B).flatten := by
      rw [hflat]; exact hsorted
    have h2 := (List.pairwise_flatten.mp hpw).2
    exact h2.chain'.imp (fun {b1 b2} h x hx y hy =>
      h x (List.mem_of_mem_getLast? hx) y (List.mem_of_mem_head? hy))

/-- Witness for C1 at the OID list [1, 3, 5] with batch size 2. -/
theorem download_batches_partition_witness :
    (downloadBatches [1, 3, 5] 2).length = ([1, 3, 5] : List Int).length ⌈/⌉ 2 ∧
    (downloadBatches [1, 3, 5] 2).flatten = [1, 3, 5] ∧
    (∀ b ∈ downloadBatches [1, 3, 5] 2, b ≠ []) ∧
    List.Chain' (fun b1 b2 => ∀ x ∈ b1.getLast?, ∀ y ∈ b2.head?, x < y)
      (downloadBatches [1, 3, 5] 2) :=
  download_batches_partition [1, 3, 5] 2 (by decide) (by decide) (by decide)

/-! ## Safety gate (safety.py)

`SafetyChecker.check` and `SafetyChecker._get_feature_count` are embedded
below.  Extent coordinates and thresholds become exact rationals.  The
network call made by `_get_feature_count` is `downloader.fetch_json_post`,
which is not defined anywhere under the repository sources (the downloader
only defines `fetch_json`); following the spec ("query the authoritative
feature count under the active filter, bounded by count_timeout") its
outcome is modelled as an explicit parameter: `.ok (some c)` is a JSON
response carrying `count = c`, `.ok none` a JSON response without a
`count` key (Python `result.get` then yields `-1`), and `.error ()` a
raised exception (network failure or timeout).  Message strings keep the
fixed prefix of the Python text; the interpolated numbers are elided. -/

/-- The action field of a SafetyVerdict: `proceed`, `warn` or `block`. -/
inductive Action
  | proceed
  | warn
  | block
deriving DecidableEq, Repr

/-- safety.py `SafetyConfig`, with its default thresholds. -/
structure SafetyConfig where
  warn_feature_count : Int := 10000
  block_feature_count : Int := 100000
  warn_extent_sq_deg : ℚ := 1/4
  block_extent_sq_deg : ℚ := 2
  est_bytes_per_feature : Int := 2000
  warn_file_size_mb : ℚ := 100
  count_timeout : Int := 30
  high_density_layer_types : List String :=
    ["parcels", "address_points", "building_footprints", "contours", "flood_zones"]

/-- The `verdict.details` dict entries written by `check`.  `round(x, 1)`
on the square-mile figure is kept exact. -/
structure SafetyDetails where
  extent_area_sq_deg : Option ℚ := none
  extent_width_deg : Option ℚ := none
  extent_height_deg : Option ℚ := none
  extent_area_sq_miles : Option ℚ := none
  raw_count : Option Int := none
  density_adjusted : Bool := false

/-- safety.py `SafetyVerdict` with its default field values. -/
structure SafetyVerdict where
  action : Action := Action.proceed
  feature_count : Int := 0
  est_file_size_mb : ℚ := 0
  extent_sq_deg : ℚ := 0
  messages : List String := []
  details : SafetyDetails := {}

/-- A geometry filter dict: either a bbox envelope or a polygon with
rings (safety.py lines 276-287, downloader.py `_add_geom_params`). -/
inductive GeomFilter
  | envelope (bbox : String)
  | polygon (rings : List (List (ℚ × ℚ))) (srWkid : Option Int)

/-- The `(xmin, ymin, xmax, ymax)` extent tuple in WGS84 degrees. -/
structure ExtentRect where
  xmin : ℚ
  ymin : ℚ
  xmax : ℚ
  ymax : ℚ

/-- `abs(xmax - xmin) * abs(ymax - ymin)`, the extent area computed by
check 1 of `SafetyChecker.check`. -/
def rectArea (r : ExtentRect) : ℚ :=
  |r.xmax - r.xmin| * |r.ymax - r.ymin|

/-- The mutable downloader attribute the safety gate touches:
`RESTDownloader.TIMEOUT`. -/
structure DownloaderState where
  TIMEOUT : Int

/-- Fixed prefix of the extent block message (safety.py line 160). -/
def extentBlockMessage : String :=
  "Query extent is extremely large. Zoom in or use a clip layer."

/-- Fixed prefix of the extent warning message (safety.py line 170). -/
def extentWarnMessage : String :=
  "Large query extent. Consider using a clip layer for targeted results."

/-- The missing-filter block message (safety.py line 181). -/
def noFilterMessage : String :=
  "No spatial filter detected. Downloading an entire service layer is not allowed."

/-- The unknown-count warning message (safety.py line 201). -/
def unknownCountMessage : String :=
  "Could not determine feature count from the server. Proceed with caution."

/-- Fixed prefix of the count block message (safety.py line 230). -/
def countBlockMessage : String :=
  "Feature count exceeds the safety limit."

/-- Fixed prefix of the count warning message (safety.py line 239). -/
def countWarnMessage : String :=
  "This will download many features. This may take several minutes."

/-- safety.py `SafetyChecker._get_feature_count`: saves
`downloader.TIMEOUT`, overrides it with `count_timeout` for the single
count query, and restores it on both the success and the failure path.
The `fetch_json_post` call itself is not defined under the repository
sources; modelled from the spec as the `fetchOutcome` parameter.  Returns
the count (`-1` when the query failed or the response had no count) and
the downloader state after the call. -/
def getFeatureCount (cfg : SafetyConfig) (st : DownloaderState)
    (fetchOutcome : Except Unit (Option Int)) : Int × DownloaderState :=
  let original_timeout := st.TIMEOUT
  let st1 : DownloaderState := { st with TIMEOUT := cfg.count_timeout }
  match fetchOutcome with
  | Except.ok result => (result.getD (-1), { st1 with TIMEOUT := original_timeout })
  | Except.error _ => (-1, { st1 with TIMEOUT := original_timeout })

/-- Python `str.lower()`, character by character (the layer-type hints
and the high-density list are ASCII names). -/
def strLower (s : String) : String := String.mk (s.data.map Char.toLower)

/-- The density test of safety.py lines 215-221: the layer-type hint is a
non-empty string whose lowercase form is in the configured high-density
list, and the measured extent area exceeds 0.1 square degrees. -/
def densityAdjusted (cfg : SafetyConfig) (layer_type : Option String)
    (area : ℚ) : Bool :=
  (match layer_type with
   | none => false
   | some t => !t.isEmpty && cfg.high_density_layer_types.contains (strLower t))
  && decide ((1 : ℚ)/10 < area)

/-- The effective warn/block thresholds used for the count comparison
(safety.py lines 219-224): tightened to at most 5000/50000 when the
density adjustment applies, the configured values otherwise. -/
def effectiveThresholds (cfg : SafetyConfig) (layer_type : Option String)
    (area : ℚ) : Int × Int :=
  if densityAdjusted cfg layer_type area then
    (min cfg.warn_feature_count 5000, min cfg.block_feature_count 50000)
  else
    (cfg.warn_feature_count, cfg.block_feature_count)

/-- The result of one `SafetyChecker.check` call: the verdict, the
downloader timeout when the call returns, and whether the network count
query was issued. -/
structure CheckResult where
  verdict : SafetyVerdict
  timeout : Int
  countQueried : Bool

/-- Check 1 of `SafetyChecker.check` (safety.py lines 140-174): the
extent-area check.  Returns the verdict after the check and whether the
check blocked (Python returns early in that case). -/
def checkExtent (cfg : SafetyConfig) (extent_rect : Option ExtentRect) :
    SafetyVerdict × Bool :=
  let v0 : SafetyVerdict := {}
  match extent_rect with
  | none => (v0, false)
  | some r =>
    let width := |r.xmax - r.xmin|
    let height := |r.ymax - r.ymin|
    let area := width * height
    let area_sq_miles := (width * 58) * (height * 69)
    let v : SafetyVerdict := { v0 with
      extent_sq_deg := area,
      details := { v0.details with
        extent_area_sq_deg := some area,
        extent_width_deg := some width,
        extent_height_deg := some height,
        extent_area_sq_miles := some area_sq_miles } }
    if cfg.block_extent_sq_deg ≤ area then
      ({ v with action := Action.block,
                messages := v.messages ++ [extentBlockMessage] }, true)
    else if cfg.warn_extent_sq_deg ≤ area then
      ({ v with messages := v.messages ++ [extentWarnMessage] }, false)
    else (v, false)

/-- Check 3 of `SafetyChecker.check` after the count has been obtained
(safety.py lines 196-254): the unknown-count degradation, the file-size
estimate, the density-aware threshold comparison and the final
proceed-to-warn upgrade when warnings accumulated. -/
def checkWithCount (cfg : SafetyConfig) (layer_type : Option String)
    (v1 : SafetyVerdict) (count : Int) : SafetyVerdict :=
  let v2 : SafetyVerdict := { v1 with
    feature_count := count,
    details := { v1.details with raw_count := some count } }
  if count < 0 then
    { v2 with
      messages := v2.messages ++ [unknownCountMessage],
      action := if v2.action ≠ Action.block then Action.warn else v2.action }
  else
    let est_mb : ℚ := ((count * cfg.est_bytes_per_feature : Int) : ℚ) / (1024 * 1024)
    let v3 : SafetyVerdict := { v2 with est_file_size_mb := est_mb }
    let dense_adj := densityAdjusted cfg layer_type v3.extent_sq_deg
    let ew := (effectiveThresholds cfg layer_type v3.extent_sq_deg).1
    let eb := (effectiveThresholds cfg layer_type v3.extent_sq_deg).2
    let v4 : SafetyVerdict :=
      if dense_adj then
        { v3 with details := { v3.details with density_adjusted := true } }
      else v3
    let v5 : SafetyVerdict :=
      if eb ≤ count then
        { v4 with action := Action.block,
                  messages := v4.messages ++ [countBlockMessage] }
      else if ew ≤ count then
        { v4 with
          action := if v4.action ≠ Action.block then Action.warn else v4.action,
          messages := v4.messages ++ [countWarnMessage] }
      else
        if v4.messages.isEmpty then { v4 with action := Action.proceed } else v4
    if v5.messages ≠ [] ∧ v5.action = Action.proceed then
      { v5 with action := Action.warn }
    else v5

/-- safety.py `SafetyChecker.check`: extent-area check, missing-filter
check, then the feature-count check with density-aware thresholds.
`countFetch` is the outcome the count query would have (see
`getFeatureCount`); it is consumed only if the check reaches check 3. -/
def check (cfg : SafetyConfig) (st : DownloaderState)
    (geom_filter : Option GeomFilter) (layer_type : Option String)
    (extent_rect : Option ExtentRect)
    (countFetch : Except Unit (Option Int)) : CheckResult :=
  -- Check 1: extent area (fast, no network call)
  let step1 := checkExtent cfg extent_rect
  let v1 := step1.1
  if step1.2 then
    { verdict := v1, timeout := st.TIMEOUT, countQueried := false }
  else
    -- Check 2: no spatial filter at all
    match geom_filter with
    | none =>
      { verdict := { v1 with action := Action.block,
                             messages := v1.messages ++ [noFilterMessage] },
        timeout := st.TIMEOUT, countQueried := false }
    | some _ =>
      -- Check 3: feature count (requires network call)
      let cr := getFeatureCount cfg st countFetch
      { verdict := checkWithCount cfg layer_type v1 cr.1,
        timeout := cr.2.TIMEOUT, countQueried := true }

/-- The default safety configuration (`SafetyConfig()` in Python). -/
def defaultConfig : SafetyConfig := {}

theorem checkExtent_none (cfg : SafetyConfig) :
    checkExtent cfg none = ({}, false) := rfl

theorem checkExtent_action_of_blocked (cfg : SafetyConfig)
    (er : Option ExtentRect) (h : (checkExtent cfg er).2 = true) :
    (checkExtent cfg er).1.action = Action.block := by
  cases er with
  | none => simp [checkExtent] at h
  | some r =>
    by_cases h1 : cfg.block_extent_sq_deg ≤ |r.xmax - r.xmin| * |r.ymax - r.ymin|
    · simp [checkExtent, h1]
    · by_cases h2 :
          cfg.warn_extent_sq_deg ≤ |r.xmax - r.xmin| * |r.ymax - r.ymin| <;>
        simp [checkExtent, h1, h2] at h

theorem checkExtent_blocked (cfg : SafetyConfig) (r : ExtentRect)
    (h : cfg.block_extent_sq_deg ≤ rectArea r) :
    (checkExtent cfg (some r)).2 = true ∧
    (checkExtent cfg (some r)).1.action = Action.block ∧
    (checkExtent cfg (some r)).1.messages ≠ [] := by
  rw [rectArea] at h
  simp [checkExtent, h]

theorem checkExtent_not_blocked (cfg : SafetyConfig) (er : Option ExtentRect)
    (h : ∀ r, er = some r → rectArea r < cfg.block_extent_sq_deg) :
    (checkExtent cfg er).2 = false ∧
    (checkExtent cfg er).1.action = Action.proceed := by
  cases er with
  | none => exact ⟨rfl, rfl⟩
  | some r =>
    have h1 : ¬ cfg.block_extent_sq_deg ≤ |r.xmax - r.xmin| * |r.ymax - r.ymin| := by
      have := h r rfl
      rw [rectArea] at this
      exact not_le.mpr this
    by_cases h2 :
        cfg.warn_extent_sq_deg ≤ |r.xmax - r.xmin| * |r.ymax - r.ymin| <;>
      simp [checkExtent, h1, h2]

theorem checkExtent_small (cfg : SafetyConfig) (r : ExtentRect)
    (h1 : rectArea r < cfg.warn_extent_sq_deg)
    (h2 : rectArea r < cfg.block_extent_sq_deg) :
    (checkExtent cfg (some r)).2 = false ∧
    (checkExtent cfg (some r)).1.messages = [] ∧
    (checkExtent cfg (some r)).1.action = Action.proceed ∧
    (checkExtent cfg (some r)).1.extent_sq_deg = rectArea r := by
  rw [rectArea] at h1 h2
  have h1' := not_le.mpr h1
  have h2' := not_le.mpr h2
  simp [checkExtent, h1', h2', rectArea]

/-- The unknown-count branch of `checkWithCount`: a negative count turns a
non-blocked verdict into Warn and appends the unknown-size message. -/
theorem checkWithCount_neg (cfg : SafetyConfig) (lt : Option String)
    (v1 : SafetyVerdict) (c : Int) (hc : c < 0)
    (hact : v1.action = Action.proceed) :
    (checkWithCount cfg lt v1 c).action = Action.warn ∧
    (checkWithCount cfg lt v1 c).messages = v1.messages ++ [unknownCountMessage] := by
  simp [checkWithCount, hc, hact]

/-- On the count path with no accumulated warnings, the verdict action is
exactly the three-way comparison of the count against the effective
thresholds at the measured extent area. -/
theorem checkWithCount_action (cfg : SafetyConfig) (lt : Option String)
    (v1 : SafetyVerdict) (c : Int) (hmsg : v1.messages = [])
    (hact : v1.action = Action.proceed) (hc : 0 ≤ c) :
    (checkWithCount cfg lt v1 c).action =
      (if (effectiveThresholds cfg lt v1.extent_sq_deg).2 ≤ c then Action.block
       else if (effectiveThresholds cfg lt v1.extent_sq_deg).1 ≤ c then Action.warn
       else Action.proceed) := by
  have hc' : ¬ (c < 0) := not_lt.mpr hc
  by_cases hb : (effectiveThresholds cfg lt v1.extent_sq_deg).2 ≤ c
  · by_cases hd : densityAdjusted cfg lt v1.extent_sq_deg = true <;>
      simp [checkWithCount, hc', hb, hd, hmsg, hact]
  · by_cases hw : (effectiveThresholds cfg lt v1.extent_sq_deg).1 ≤ c
    · by_cases hd : densityAdjusted cfg lt v1.extent_sq_deg = true <;>
        simp [checkWithCount, hc', hb, hw, hd, hmsg, hact]
    · by_cases hd : densityAdjusted cfg lt v1.extent_sq_deg = true <;>
        simp [checkWithCount, hc', hb, hw, hd, hmsg, hact]

/-- C3: a safety check invoked with geometry filter None yields a Block
verdict, regardless of the count-query outcome, the extent rectangle, the
layer type and the configuration. -/
theorem check_no_filter_blocks (cfg : SafetyConfig) (st : DownloaderState)
    (layer_type : Option String) (extent_rect : Option ExtentRect)
    (countFetch : Except Unit (Option Int)) :
    (check cfg st none layer_type extent_rect countFetch).verdict.action
      = Action.block := by
  by_cases hb : (checkExtent cfg extent_rect).2 = true
  · simp only [check, hb, if_true]
    exact checkExtent_action_of_blocked cfg extent_rect hb
  · rw [Bool.not_eq_true] at hb
    simp [check, hb]

/-- C4: an extent rectangle of area at least `block_extent_sq_deg` yields
a Block verdict with at least one reason message, and the check returns
without issuing the network count query, whatever count the server would
have reported. -/
theorem check_extent_block (cfg : SafetyConfig) (st : DownloaderState)
    (geom_filter : Option GeomFilter) (layer_type : Option String)
    (r : ExtentRect) (countFetch : Except Unit (Option Int))
    (h : cfg.block_extent_sq_deg ≤ rectArea r) :
    (check cfg st geom_filter layer_type (some r) countFetch).verdict.action
        = Action.block ∧
    (check cfg st geom_filter layer_type (some r) countFetch).verdict.messages
        ≠ [] ∧
    (check cfg st geom_filter layer_type (some r) countFetch).countQueried
        = false := by
  obtain ⟨hsnd, hact, hmsg⟩ := checkExtent_blocked cfg r h
  simp only [check, hsnd, if_true]
  exact ⟨hact, hmsg, trivial⟩

/-- Witness for C4: the default config blocks a 2-degree-square extent
(area 4 ≥ 2) without consulting the server. -/
theorem check_extent_block_witness :
    (check defaultConfig ⟨60⟩ none none (some ⟨0, 0, 2, 2⟩)
        (Except.ok (some 0))).verdict.action = Action.block ∧
    (check defaultConfig ⟨60⟩ none none (some ⟨0, 0, 2, 2⟩)
        (Except.ok (some 0))).verdict.messages ≠ [] ∧
    (check defaultConfig ⟨60⟩ none none (some ⟨0, 0, 2, 2⟩)
        (Except.ok (some 0))).countQueried = false :=
  check_extent_block defaultConfig ⟨60⟩ none none ⟨0, 0, 2, 2⟩
    (Except.ok (some 0)) (by norm_num [rectArea, defaultConfig])

/-- C6: with a non-empty geometry filter and a non-blocking extent, a
failed count query (raised exception, or a response without a count key)
yields a Warn verdict whose messages include the unknown-size reason. -/
theorem check_count_failure_warns (cfg : SafetyConfig) (st : DownloaderState)
    (gf : GeomFilter) (layer_type : Option String)
    (extent_rect : Option ExtentRect) (countFetch : Except Unit (Option Int))
    (hext : ∀ r, extent_rect = some r → rectArea r < cfg.block_extent_sq_deg)
    (hfail : countFetch = Except.error () ∨ countFetch = Except.ok none) :
    (check cfg st (some gf) layer_type extent_rect countFetch).verdict.action
        = Action.warn ∧
    unknownCountMessage ∈
      (check cfg st (some gf) layer_type extent_rect countFetch).verdict.messages := by
  obtain ⟨hsnd, hact⟩ := checkExtent_not_blocked cfg extent_rect hext
  have hcount : (getFeatureCount cfg st countFetch).1 = -1 := by
    rcases hfail with h | h <;> subst h <;> rfl
  simp only [check, hsnd, Bool.false_eq_true, if_false]
  rw [hcount]
  obtain ⟨ha, hm⟩ :=
    checkWithCount_neg cfg layer_type (checkExtent cfg extent_rect).1 (-1)
      (by norm_num) hact
  refine ⟨ha, ?_⟩
  rw [hm]
  simp

/-- Witness for C6: a failed count query under the default config with a
small extent yields Warn with the unknown-size message. -/
theorem check_count_failure_warns_witness :
    (check defaultConfig ⟨60⟩ (some (GeomFilter.envelope "0,0,1,1")) none
        (some ⟨0, 0, 1/10, 1/10⟩) (Except.error ())).verdict.action
      = Action.warn ∧
    unknownCountMessage ∈
      (check defaultConfig ⟨60⟩ (some (GeomFilter.envelope "0,0,1,1")) none
        (some ⟨0, 0, 1/10, 1/10⟩) (Except.error ())).verdict.messages :=
  check_count_failure_warns defaultConfig ⟨60⟩ (GeomFilter.envelope "0,0,1,1")
    none (some ⟨0, 0, 1/10, 1/10⟩) (Except.error ())
    (by intro r hr; cases hr; norm_num [rectArea, defaultConfig]) (Or.inl rfl)

/-- When the extent is below both extent thresholds and the count query
succeeds with a non-negative count, the verdict action is determined by
comparing the count against the effective thresholds: block at or above
the effective block threshold, warn at or above the effective warn
threshold, proceed below both. -/
theorem check_action_of_count (cfg : SafetyConfig) (st : DownloaderState)
    (gf : GeomFilter) (layer_type : Option String) (r : ExtentRect) (c : Int)
    (h1 : rectArea r < cfg.warn_extent_sq_deg)
    (h2 : rectArea r < cfg.block_extent_sq_deg)
    (hc : 0 ≤ c) :
    (check cfg st (some gf) layer_type (some r)
        (Except.ok (some c))).verdict.action =
      (if (effectiveThresholds cfg layer_type (rectArea r)).2 ≤ c then
        Action.block
       else if (effectiveThresholds cfg layer_type (rectArea r)).1 ≤ c then
        Action.warn
       else Action.proceed) := by
  obtain ⟨hsnd, hmsg, hact, hext⟩ := checkExtent_small cfg r h1 h2
  have key := checkWithCount_action cfg layer_type
    (checkExtent cfg (some r)).1 c hmsg hact hc
  rw [hext] at key
  simp only [check, hsnd, Bool.false_eq_true, if_false]
  have hcount : (getFeatureCount cfg st (Except.ok (some c))).1 = c := rfl
  rw [hcount]
  exact key

/-- The density adjustment fires exactly when the layer-type hint is a
non-empty string whose lowercase form is contained in the high-density
list and the measured extent area exceeds 0.1 square degrees. -/
theorem densityAdjusted_eq_true_iff (cfg : SafetyConfig)
    (lt : Option String) (area : ℚ) :
    densityAdjusted cfg lt area = true ↔
      ((∃ t, lt = some t ∧ t.isEmpty = false ∧
        cfg.high_density_layer_types.contains (strLower t) = true) ∧
       (1 : ℚ)/10 < area) := by
  cases lt with
  | none => simp [densityAdjusted]
  | some t =>
    simp only [densityAdjusted, Bool.and_eq_true, Bool.not_eq_true',
      decide_eq_true_eq, Option.some.injEq]
    constructor
    · rintro ⟨⟨he, hcon⟩, ha⟩
      exact ⟨⟨t, rfl, he, hcon⟩, ha⟩
    · rintro ⟨⟨t', ht', he, hcon⟩, ha⟩
      cases ht'
      exact ⟨⟨he, hcon⟩, ha⟩

/-- C2 counterexample: under the default configuration, a count of 6000 —
strictly below `warn_feature_count` = 10000 — with layer type "parcels"
and an extent of area 81/400 = 0.2025 square degrees (below the warn
extent threshold 0.25) yields Warn, not Proceed: the density adjustment
lowers the effective warn threshold to 5000. -/
theorem check_count_below_warn_not_proceed :
    (6000 : Int) < defaultConfig.warn_feature_count ∧
    rectArea ⟨0, 0, 9/20, 9/20⟩ < defaultConfig.warn_extent_sq_deg ∧
    (check defaultConfig ⟨60⟩ (some (GeomFilter.envelope "0,0,0.45,0.45"))
        (some "parcels") (some ⟨0, 0, 9/20, 9/20⟩)
        (Except.ok (some 6000))).verdict.action = Action.warn ∧
    Action.warn ≠ Action.proceed := by
  have harea : rectArea ⟨0, 0, 9/20, 9/20⟩ = 81/400 := by
    rw [rectArea]; norm_num
  have hd : densityAdjusted defaultConfig (some "parcels") (81/400) = true := by
    rw [densityAdjusted_eq_true_iff]
    exact ⟨⟨"parcels", rfl, by decide, by decide⟩, by norm_num⟩
  have ht : effectiveThresholds defaultConfig (some "parcels") (81/400)
      = (5000, 50000) := by
    simp only [effectiveThresholds, hd, if_true]
    rfl
  refine ⟨by norm_num [defaultConfig], by rw [harea]; norm_num [defaultConfig],
    ?_, by simp⟩
  rw [check_action_of_count defaultConfig ⟨60⟩
    (GeomFilter.envelope "0,0,0.45,0.45") (some "parcels") ⟨0, 0, 9/20, 9/20⟩
    6000 (by rw [harea]; norm_num [defaultConfig])
    (by rw [harea]; norm_num [defaultConfig]) (by norm_num), harea, ht]
  norm_num

/-- C2 (amended): with a non-empty geometry filter, an extent below the
warn and block extent thresholds, a successful count query, a
configuration whose warn count threshold is non-negative and strictly
below its block count threshold, and the density adjustment not in
effect: a count equal to `warn_feature_count` yields Warn, a count equal
to `block_feature_count` yields Block, and a non-negative count strictly
below `warn_feature_count` yields Proceed. -/
theorem check_count_threshold_verdicts (cfg : SafetyConfig)
    (st : DownloaderState) (gf : GeomFilter) (lt : Option String)
    (r : ExtentRect)
    (h1 : rectArea r < cfg.warn_extent_sq_deg)
    (h2 : rectArea r < cfg.block_extent_sq_deg)
    (hw0 : 0 ≤ cfg.warn_feature_count)
    (hwb : cfg.warn_feature_count < cfg.block_feature_count)
    (hnd : densityAdjusted cfg lt (rectArea r) = false) :
    (check cfg st (some gf) lt (some r)
        (Except.ok (some cfg.warn_feature_count))).verdict.action
      = Action.warn ∧
    (check cfg st (some gf) lt (some r)
        (Except.ok (some cfg.block_feature_count))).verdict.action
      = Action.block ∧
    (∀ c : Int, 0 ≤ c → c < cfg.warn_feature_count →
      (check cfg st (some gf) lt (some r)
        (Except.ok (some c))).verdict.action = Action.proceed) := by
  have hthr : effectiveThresholds cfg lt (rectArea r)
      = (cfg.warn_feature_count, cfg.block_feature_count) := by
    simp only [effectiveThresholds, hnd, Bool.false_eq_true, if_false]
  refine ⟨?_, ?_, ?_⟩
  · rw [check_action_of_count cfg st gf lt r _ h1 h2 hw0, hthr]
    rw [if_neg (not_le.mpr hwb), if_pos (le_refl _)]
  · rw [check_action_of_count cfg st gf lt r _ h1 h2 (le_of_lt
      (lt_of_le_of_lt hw0 hwb)), hthr]
    rw [if_pos (le_refl _)]
  · intro c hc hcw
    rw [check_action_of_count cfg st gf lt r c h1 h2 hc, hthr]
    rw [if_neg (not_le.mpr (lt_trans hcw hwb)), if_neg (not_le.mpr hcw)]

/-- Witness for amended C2: default config, no layer type, extent of area
1/100; counts 10000, 100000 and 3 yield Warn, Block and Proceed. -/
theorem check_count_threshold_verdicts_witness :
    (check defaultConfig ⟨60⟩ (some (GeomFilter.envelope "0,0,0.1,0.1")) none
        (some ⟨0, 0, 1/10, 1/10⟩)
        (Except.ok (some defaultConfig.warn_feature_count))).verdict.action
      = Action.warn ∧
    (check defaultConfig ⟨60⟩ (some (GeomFilter.envelope "0,0,0.1,0.1")) none
        (some ⟨0, 0, 1/10, 1/10⟩)
        (Except.ok (some defaultConfig.block_feature_count))).verdict.action
      = Action.block ∧
    (∀ c : Int, 0 ≤ c → c < defaultConfig.warn_feature_count →
      (check defaultConfig ⟨60⟩ (some (GeomFilter.envelope "0,0,0.1,0.1")) none
        (some ⟨0, 0, 1/10, 1/10⟩)
        (Except.ok (some c))).verdict.action = Action.proceed) :=
  check_count_threshold_verdicts defaultConfig ⟨60⟩
    (GeomFilter.envelope "0,0,0.1,0.1") none ⟨0, 0, 1/10, 1/10⟩
    (by norm_num [rectArea, defaultConfig])
    (by norm_num [rectArea, defaultConfig])
    (by norm_num [defaultConfig]) (by norm_num [defaultConfig]) rfl

/-- C9: with a non-empty filter, an extent below both extent thresholds
and a successful non-negative count, the count comparison uses the
tightened thresholds min(warn, 5000) and min(block, 50000) exactly when
the layer-type hint is a non-empty string whose lowercase form is in the
configured high-density list and the measured extent area exceeds 0.1
square degrees; otherwise it uses the configured thresholds unchanged. -/
theorem check_density_threshold_selection (cfg : SafetyConfig)
    (st : DownloaderState) (gf : GeomFilter) (lt : Option String)
    (r : ExtentRect) (c : Int)
    (h1 : rectArea r < cfg.warn_extent_sq_deg)
    (h2 : rectArea r < cfg.block_extent_sq_deg)
    (hc : 0 ≤ c) :
    (((∃ t, lt = some t ∧ t.isEmpty = false ∧
        cfg.high_density_layer_types.contains (strLower t) = true) ∧
      (1 : ℚ)/10 < rectArea r) →
      (check cfg st (some gf) lt (some r)
          (Except.ok (some c))).verdict.action =
        (if min cfg.block_feature_count 50000 ≤ c then Action.block
         else if min cfg.warn_feature_count 5000 ≤ c then Action.warn
         else Action.proceed)) ∧
    ((¬ ((∃ t, lt = some t ∧ t.isEmpty = false ∧
        cfg.high_density_layer_types.contains (strLower t) = true) ∧
      (1 : ℚ)/10 < rectArea r)) →
      (check cfg st (some gf) lt (some r)
          (Except.ok (some c))).verdict.action =
        (if cfg.block_feature_count ≤ c then Action.block
         else if cfg.warn_feature_count ≤ c then Action.warn
         else Action.proceed)) := by
  constructor
  · intro hcond
    have hd : densityAdjusted cfg lt (rectArea r) = true :=
      (densityAdjusted_eq_true_iff cfg lt (rectArea r)).mpr hcond
    rw [check_action_of_count cfg st gf lt r c h1 h2 hc]
    simp only [effectiveThresholds, hd, if_true]
  · intro hcond
    have hd : densityAdjusted cfg lt (rectArea r) = false := by
      cases hcase : densityAdjusted cfg lt (rectArea r)
      · rfl
      · exact absurd ((densityAdjusted_eq_true_iff cfg lt (rectArea r)).mp
          hcase) hcond
    rw [check_action_of_count cfg st gf lt r c h1 h2 hc]
    simp only [effectiveThresholds, hd, Bool.false_eq_true, if_false]

/-- Witness for C9: layer type "parcels" over an extent of area 0.2025
square degrees with count 0 under the default config. -/
theorem check_density_threshold_selection_witness :
    (((∃ t, (some "parcels" : Option String) = some t ∧ t.isEmpty = false ∧
        defaultConfig.high_density_layer_types.contains (strLower t) = true) ∧
      (1 : ℚ)/10 < rectArea ⟨0, 0, 9/20, 9/20⟩) →
      (check defaultConfig ⟨60⟩ (some (GeomFilter.envelope "0,0,0.45,0.45"))
          (some "parcels") (some ⟨0, 0, 9/20, 9/20⟩)
          (Except.ok (some 0))).verdict.action =
        (if min defaultConfig.block_feature_count 50000 ≤ (0 : Int) then
          Action.block
         else if min defaultConfig.warn_feature_count 5000 ≤ (0 : Int) then
          Action.warn
         else Action.proceed)) ∧
    ((¬ ((∃ t, (some "parcels" : Option String) = some t ∧ t.isEmpty = false ∧
        defaultConfig.high_density_layer_types.contains (strLower t) = true) ∧
      (1 : ℚ)/10 < rectArea ⟨0, 0, 9/20, 9/20⟩)) →
      (check defaultConfig ⟨60⟩ (some (GeomFilter.envelope "0,0,0.45,0.45"))
          (some "parcels") (some ⟨0, 0, 9/20, 9/20⟩)
          (Except.ok (some 0))).verdict.action =
        (if defaultConfig.block_feature_count ≤ (0 : Int) then Action.block
         else if defaultConfig.warn_feature_count ≤ (0 : Int) then Action.warn
         else Action.proceed)) :=
  check_density_threshold_selection defaultConfig ⟨60⟩
    (GeomFilter.envelope "0,0,0.45,0.45") (some "parcels")
    ⟨0, 0, 9/20, 9/20⟩ 0
    (by norm_num [rectArea, defaultConfig])
    (by norm_num [rectArea, defaultConfig]) (by norm_num)

/-- C7: `_get_feature_count` restores the downloader timeout: after the
call, `downloader.TIMEOUT` equals its value before the call, on the
success path and on the failure path alike. -/
theorem getFeatureCount_restores_timeout (cfg : SafetyConfig)
    (st : DownloaderState) (fetchOutcome : Except Unit (Option Int)) :
    ((getFeatureCount cfg st fetchOutcome).2).TIMEOUT = st.TIMEOUT := by
  cases fetchOutcome <;> rfl

/-! ## Feature download (downloader.py, `download_features`)

The three network round trips of `download_features` (count query, ids
query, per-batch fetch) are modelled by a `DLServer` record of outcomes,
and the function additionally returns the list of queries it issued, in
order.  JSON `.get` with a default becomes `Option.getD`. -/

/-- An ESRI JSON spatial reference dict. -/
structure SpatialRef where
  wkid : Option Int := none
  latestWkid : Option Int := none

/-- An ESRI JSON geometry dict: whichever of the keys `rings`, `paths`,
`x`, `y` are present. -/
structure GeomJson where
  rings : Option (List (List (ℚ × ℚ))) := none
  paths : Option (List (List (ℚ × ℚ))) := none
  x : Option ℚ := none
  y : Option ℚ := none

/-- An ESRI JSON feature dict: an optional geometry (absent key or JSON
null both become `none`) and the attribute mapping.  Attribute values are
kept as their string rendering; the QVariant typing of values is a QGIS
concern outside the embedded code. -/
structure FeatureJson where
  geometry : Option GeomJson := none
  attributes : List (String × String) := []

/-- Response of the count query: the `count` key, when present. -/
structure CountJson where
  count : Option Int := none

/-- Response of the ids-only query: `objectIdFieldName` and `objectIds`,
when present. -/
structure IdsJson where
  objectIdFieldName : Option String := none
  objectIds : Option (List Int) := none

/-- Response of one batch fetch: the `features` array and the
`spatialReference` key, when present. -/
structure BatchJson where
  features : List FeatureJson := []
  spatialReference : Option SpatialRef := none

/-- The server as seen by one `download_features` call: the outcome of
the count query, of the ids query, and of the i-th batch fetch.
`.error ()` stands for a raised exception in `fetch_json`. -/
structure DLServer where
  countResp : Except Unit CountJson
  idsResp : Except Unit IdsJson
  batchResp : Nat → Except Unit BatchJson

/-- One REST query issued by `download_features`: the count-only query,
the ids-only query, or a batch fetch whose where-clause range is
`oid_field >= lo AND oid_field <= hi`. -/
inductive Query
  | countQuery
  | idsQuery
  | batchQuery (lo hi : Int)
deriving DecidableEq, Repr

/-- Whether a query is a batch fetch. -/
def Query.isBatch : Query → Bool
  | Query.batchQuery _ _ => true
  | _ => false

/-- Python `sorted` on the OID list. -/
def sortInts (l : List Int) : List Int := l.mergeSort (fun a b => a ≤ b)

/-- The `for bi in range(nb)` loop of `download_features` step 3 over the
precomputed batch slices: fetches each batch, extends the accumulator
with the returned features, records the first returned spatial reference,
and aborts the whole download on any batch failure.  Returns the outcome
and the issued batch queries in order. -/
def batchLoop (srv : DLServer) :
    List (List Int) → Nat → List FeatureJson → Option SpatialRef →
      (Except Unit (List FeatureJson × Option SpatialRef)) × List Query
  | [], _, acc, sp => (Except.ok (acc, sp), [])
  | b :: rest, bi, acc, sp =>
    let q := Query.batchQuery (b.head?.getD 0) (b.getLast?.getD 0)
    match srv.batchResp bi with
    | Except.error e => (Except.error e, [q])
    | Except.ok bd =>
      let acc2 := acc ++ bd.features
      let sp2 := if sp.isNone && bd.spatialReference.isSome
                 then bd.spatialReference else sp
      let r := batchLoop srv rest (bi + 1) acc2 sp2
      (r.1, q :: r.2)

/-- downloader.py `download_features`: count query (`.get('count', 0)`),
early exit on zero, ids query, sort, early exit on an empty ID set, then
the batch loop over `downloadBatches`.  Returns the outcome — the feature
list and the resolved spatial reference, or the propagated exception —
together with every query issued, in order. -/
def download_features (srv : DLServer) (B : Nat) :
    (Except Unit (List FeatureJson × Option SpatialRef)) × List Query :=
  -- Step 1: Count
  match srv.countResp with
  | Except.error e => (Except.error e, [Query.countQuery])
  | Except.ok cj =>
    let total := cj.count.getD 0
    if total = 0 then (Except.ok ([], none), [Query.countQuery])
    else
      -- Step 2: Get OIDs
      match srv.idsResp with
      | Except.error e => (Except.error e, [Query.countQuery, Query.idsQuery])
      | Except.ok ij =>
        let oids := sortInts (ij.objectIds.getD [])
        if oids.isEmpty then
          (Except.ok ([], none), [Query.countQuery, Query.idsQuery])
        else
          -- Step 3: Batch download
          let r := batchLoop srv (downloadBatches oids B) 0 [] none
          (r.1, Query.countQuery :: Query.idsQuery :: r.2)

/-- C5: when the count query returns 0, or when the ids query returns an
empty ID set despite a non-zero count, `download_features` returns the
pair (empty feature list, no spatial reference) and issues no batch fetch
query. -/
theorem download_features_empty (srv : DLServer) (B : Nat)
    (h : (∃ cj, srv.countResp = Except.ok cj ∧ cj.count.getD 0 = 0) ∨
         (∃ cj ij, srv.countResp = Except.ok cj ∧ cj.count.getD 0 ≠ 0 ∧
            srv.idsResp = Except.ok ij ∧ ij.objectIds.getD [] = [])) :
    (download_features srv B).1 = Except.ok ([], none) ∧
    ∀ q ∈ (download_features srv B).2, q.isBatch = false := by
  rcases h with ⟨cj, hcj, hz⟩ | ⟨cj, ij, hcj, hnz, hij, hempty⟩
  · have hlog : (download_features srv B).2 = [Query.countQuery] := by
      simp [download_features, hcj, hz]
    refine ⟨by simp [download_features, hcj, hz], ?_⟩
    rw [hlog]
    intro q hq
    have hq' := List.mem_singleton.mp hq
    subst hq'
    rfl
  · have hsort : (sortInts (ij.objectIds.getD [])).isEmpty = true := by
      rw [hempty]
      simp [sortInts]
    have hlog : (download_features srv B).2
        = [Query.countQuery, Query.idsQuery] := by
      simp [download_features, hcj, hnz, hij, hsort]
    refine ⟨by simp [download_features, hcj, hnz, hij, hsort], ?_⟩
    rw [hlog]
    intro q hq
    rcases List.mem_cons.mp hq with h1 | h1
    · subst h1; rfl
    · have h2 := List.mem_singleton.mp h1
      subst h2
      rfl

/-- A server reporting a zero count. -/
def emptyCountServer : DLServer where
  countResp := Except.ok { count := some 0 }
  idsResp := Except.ok {}
  batchResp := fun _ => Except.error ()

/-- Witness for C5: the zero-count server with the default batch size. -/
theorem download_features_empty_witness :
    (download_features emptyCountServer 500).1 = Except.ok ([], none) ∧
    ∀ q ∈ (download_features emptyCountServer 500).2, q.isBatch = false :=
  download_features_empty emptyCountServer 500
    (Or.inl ⟨{ count := some 0 }, rfl, rfl⟩)


/-! ## ESRI JSON to QGIS layer conversion (downloader.py,
`to_qgis_layer` and `_convert_geometry`)

`QgsGeometry` is external to the repository; the WKT text built by
`_convert_geometry` is modelled by the typed geometry it denotes, and
`QgsGeometry.fromWkt` is modelled as succeeding on the WKT built from a
non-empty ring/path payload.  The `return None` branches on an empty or
absent payload are the source lines 468-469, 481-482 and the final
fall-through `return None`.  The Python `for` loop of `to_qgis_layer`
that appends converted features and counts skips is rendered as
`filterMap` and `countP` over the same per-feature conversion, in loop
order; the QVariant attribute-coercion `try/except` is a QGIS concern
outside the embedded code. -/

/-- The `gt_map` lookup of `to_qgis_layer` with its `'MultiPolygon'`
default. -/
def gtMap (egt : String) : String :=
  if egt = "esriGeometryPoint" then "Point"
  else if egt = "esriGeometryMultipoint" then "MultiPoint"
  else if egt = "esriGeometryPolyline" then "MultiLineString"
  else if egt = "esriGeometryPolygon" then "MultiPolygon"
  else "MultiPolygon"

/-- `spatial_ref.get('latestWkid', spatial_ref.get('wkid', 4326))` with
the 4326 fallback when no spatial reference was resolved. -/
def layerWkid (spatial_ref : Option SpatialRef) : Int :=
  match spatial_ref with
  | none => 4326
  | some s => s.latestWkid.getD (s.wkid.getD 4326)

/-- The normalized geometry a converted feature carries: the multi
polygon, multi line string or point denoted by the WKT text the source
builds. -/
inductive QGeometry
  | multiPolygon (rings : List (List (ℚ × ℚ)))
  | multiLineString (paths : List (List (ℚ × ℚ)))
  | point (x y : ℚ)

/-- downloader.py `_convert_geometry`: polygon rings to a multi polygon,
polyline paths to a multi line string, point coordinates (defaulting to
0) to a point; `none` for an empty or absent payload and for any other
declared geometry type. -/
def convert_geometry (esri_type : String) (geom_json : GeomJson) :
    Option QGeometry :=
  if esri_type = "esriGeometryPolygon" then
    let rings := geom_json.rings.getD []
    if rings.isEmpty then none
    else some (QGeometry.multiPolygon rings)
  else if esri_type = "esriGeometryPolyline" then
    let paths := geom_json.paths.getD []
    if paths.isEmpty then none
    else some (QGeometry.multiLineString paths)
  else if esri_type = "esriGeometryPoint" then
    some (QGeometry.point (geom_json.x.getD 0) (geom_json.y.getD 0))
  else none

/-- One converted output feature: its geometry and its attribute values
looked up per declared field name (`at.get(fn)`, `none` when absent). -/
structure QgsFeatureM where
  geom : QGeometry
  attrs : List (String × Option String)

/-- The layer metadata consumed by `to_qgis_layer`: the declared geometry
type and the declared field names. -/
structure LayerInfo where
  geometryType : Option String := none
  fields : List String := []
  name : Option String := none

/-- The memory layer built by `to_qgis_layer`: its geometry type string,
CRS, converted features, and the skipped counter. -/
structure MemoryLayer where
  geomType : String
  crsWkid : Int
  feats : List QgsFeatureM
  skipped : Nat

/-- The body of the per-feature loop of `to_qgis_layer`: `none` when the
feature is skipped (null/absent geometry, or a geometry that converts to
no geometry), otherwise the converted feature. -/
def convFeature (egt : String) (fnames : List String) (fj : FeatureJson) :
    Option QgsFeatureM :=
  match fj.geometry with
  | none => none
  | some gj =>
    match convert_geometry egt gj with
    | none => none
    | some g =>
      some { geom := g,
             attrs := fnames.map (fun fn => (fn, fj.attributes.lookup fn)) }

/-- downloader.py `to_qgis_layer`: `None` for an empty feature list,
otherwise the memory layer whose features are the in-order successful
conversions and whose skipped counter counts the features dropped by the
loop. -/
def to_qgis_layer (features : List FeatureJson)
    (spatial_ref : Option SpatialRef) (layer_info : LayerInfo) :
    Option MemoryLayer :=
  if features.isEmpty then none
  else
    let egt := layer_info.geometryType.getD "esriGeometryPolygon"
    some
      { geomType := gtMap egt,
        crsWkid := layerWkid spatial_ref,
        feats := features.filterMap (convFeature egt layer_info.fields),
        skipped :=
          features.countP (fun fj => (convFeature egt layer_info.fields fj).isNone) }

theorem countP_isNone_add_length_filterMap {α β : Type} (f : α → Option β)
    (l : List α) :
    l.countP (fun a => (f a).isNone) + (l.filterMap f).length = l.length := by
  induction l with
  | nil => rfl
  | cons a t ih =>
    cases hfa : f a with
    | none =>
      rw [List.filterMap_cons_none hfa,
        List.countP_cons_of_pos _ _ (by rw [hfa]; rfl), List.length_cons]
      omega
    | some b =>
      rw [List.filterMap_cons_some hfa,
        List.countP_cons_of_neg _ _ (by rw [hfa]; simp), List.length_cons,
        List.length_cons]
      omega

/-- C8 counterexample: under a declared point geometry type, a feature
whose geometry payload has absent coordinates (no x, no y) is converted
to the default point (0, 0) and included — the skipped counter stays 0
and the output has one feature, so such a feature is not excluded. -/
theorem point_empty_payload_not_skipped :
    (to_qgis_layer [{ geometry := some {} }] none
        { geometryType := some "esriGeometryPoint" }).map
      (fun ml => (ml.feats.length, ml.skipped)) = some (1, 0) ∧
    ({} : GeomJson).x = none ∧ ({} : GeomJson).y = none := by
  exact ⟨rfl, rfl, rfl⟩

/-- C8 (amended): for every non-empty feature list the conversion
succeeds as a whole; the output features are exactly the in-order
successful conversions; every dropped feature increments the skipped
counter by exactly one (skipped + converted = total); a feature with a
null or absent geometry is always dropped; and a feature whose ring or
path payload is empty or absent under a declared polygon or polyline
type is always dropped.  (A point-type payload with absent coordinates
defaults to the point (0, 0) and is included.) -/
theorem to_qgis_layer_skips (features : List FeatureJson)
    (spatial_ref : Option SpatialRef) (layer_info : LayerInfo)
    (h : features ≠ []) :
    ∃ ml, to_qgis_layer features spatial_ref layer_info = some ml ∧
      ml.feats = features.filterMap
        (convFeature (layer_info.geometryType.getD "esriGeometryPolygon")
          layer_info.fields) ∧
      ml.skipped + ml.feats.length = features.length ∧
      (∀ fj ∈ features, fj.geometry = none →
        convFeature (layer_info.geometryType.getD "esriGeometryPolygon")
          layer_info.fields fj = none) ∧
      (∀ fj ∈ features, ∀ gj, fj.geometry = some gj →
        ((layer_info.geometryType.getD "esriGeometryPolygon"
            = "esriGeometryPolygon" ∧ (gj.rings.getD []).isEmpty = true) ∨
         (layer_info.geometryType.getD "esriGeometryPolygon"
            = "esriGeometryPolyline" ∧ (gj.paths.getD []).isEmpty = true)) →
        convFeature (layer_info.geometryType.getD "esriGeometryPolygon")
          layer_info.fields fj = none) := by
  have hne : features.isEmpty = false := by
    cases features with
    | nil => exact absurd rfl h
    | cons a t => rfl
  refine ⟨_, by rw [to_qgis_layer, hne]; rfl, rfl, ?_, ?_, ?_⟩
  · exact countP_isNone_add_length_filterMap _ features
  · intro fj _ hgeom
    rw [convFeature, hgeom]
  · intro fj _ gj hgeom hcase
    rw [convFeature, hgeom]
    rcases hcase with ⟨hty, hpay⟩ | ⟨hty, hpay⟩ <;>
      rw [hty] <;> simp [convert_geometry, hpay]

/-- Witness for C8 at a two-feature list under a declared polygon type:
one null-geometry feature (dropped), one one-ring polygon (kept). -/
theorem to_qgis_layer_skips_witness :
    ∃ ml, to_qgis_layer
        [{ geometry := none },
         { geometry := some { rings := some [[(0, 0), (1, 0), (1, 1), (0, 0)]] } }]
        none { geometryType := some "esriGeometryPolygon" } = some ml ∧
      ml.feats =
        [{ geometry := none },
         { geometry := some { rings := some [[(0, 0), (1, 0), (1, 1), (0, 0)]] } }].filterMap
          (convFeature
            ((some "esriGeometryPolygon" : Option String).getD "esriGeometryPolygon")
            ([] : List String)) ∧
      ml.skipped + ml.feats.length = 2 ∧
      (∀ fj ∈ [{ geometry := none },
         { geometry := some { rings := some [[(0, 0), (1, 0), (1, 1), (0, 0)]] } }],
        fj.geometry = none →
        convFeature
          ((some "esriGeometryPolygon" : Option String).getD "esriGeometryPolygon")
          ([] : List String) fj = none) ∧
      (∀ fj ∈ [{ geometry := none },
         { geometry := some { rings := some [[(0, 0), (1, 0), (1, 1), (0, 0)]] } }],
        ∀ gj, fj.geometry = some gj →
        (((some "esriGeometryPolygon" : Option String).getD "esriGeometryPolygon"
            = "esriGeometryPolygon" ∧ (gj.rings.getD []).isEmpty = true) ∨
         ((some "esriGeometryPolygon" : Option String).getD "esriGeometryPolygon"
            = "esriGeometryPolyline" ∧ (gj.paths.getD []).isEmpty = true)) →
        convFeature
          ((some "esriGeometryPolygon" : Option String).getD "esriGeometryPolygon")
          ([] : List String) fj = none) :=
  to_qgis_layer_skips
    [{ geometry := none },
     { geometry := some { rings := some [[(0, 0), (1, 0), (1, 1), (0, 0)]] } }]
    none { geometryType := some "esriGeometryPolygon" } (by simp)

/-- C10: `_convert_geometry` handles only polygon, polyline and point
types, so under a declared `esriGeometryMultipoint` type it returns no
geometry for every payload, and `to_qgis_layer` consequently outputs a
layer with zero features in which every input feature — in particular
every geometry-bearing one — is counted as skipped. -/
theorem multipoint_never_converts (g : GeomJson) (features : List FeatureJson)
    (spatial_ref : Option SpatialRef) (layer_info : LayerInfo)
    (hinfo : layer_info.geometryType = some "esriGeometryMultipoint")
    (h : features ≠ []) :
    convert_geometry "esriGeometryMultipoint" g = none ∧
    ∃ ml, to_qgis_layer features spatial_ref layer_info = some ml ∧
      ml.feats = [] ∧ ml.skipped = features.length := by
  have hconv : ∀ gj : GeomJson,
      convert_geometry "esriGeometryMultipoint" gj = none := by
    intro gj
    rw [convert_geometry]
    rw [if_neg (by decide), if_neg (by decide), if_neg (by decide)]
  have hne : features.isEmpty = false := by
    cases features with
    | nil => exact absurd rfl h
    | cons a t => rfl
  have hcf : ∀ fj : FeatureJson,
      convFeature (layer_info.geometryType.getD "esriGeometryPolygon")
        layer_info.fields fj = none := by
    intro fj
    rw [hinfo, Option.getD_some, convFeature]
    cases fj.geometry with
    | none => rfl
    | some gj => simp only [hconv gj]
  refine ⟨hconv g, _, by rw [to_qgis_layer, hne]; rfl, ?_, ?_⟩
  · rw [List.filterMap_eq_nil_iff]
    intro fj _
    exact hcf fj
  · exact List.countP_eq_length.mpr (fun fj _ => by rw [hcf fj]; rfl)

/-- Witness for C10 at a single geometry-bearing feature. -/
theorem multipoint_never_converts_witness :
    convert_geometry "esriGeometryMultipoint" {} = none ∧
    ∃ ml, to_qgis_layer [{ geometry := some {} }] none
        { geometryType := some "esriGeometryMultipoint" } = some ml ∧
      ml.feats = [] ∧ ml.skipped = 1 :=
  multipoint_never_converts {} [{ geometry := some {} }] none
    { geometryType := some "esriGeometryMultipoint" } rfl (by simp)


end GeoGrab
